import Mathlib

/-!
Shallow embedding of `nbgrader/auth/hubauth.py` (class `HubAuth`).

The Python class is configuration plumbing around three outbound HTTP
calls.  We embed each method as a pure Lean function: the mutable
attributes it reads become explicit arguments, the attributes it writes
become explicit results, and every HTTP response it consumes is an
explicit input.  Requests the code issues are returned as data so that
"issues exactly one POST" style properties are statable.
-/

namespace HubAuth

/-- State relevant to `authenticate`: the configured grader allow-list and
the currently recorded authenticated user (`self._user`). -/
structure AuthState where
  graders : List String
  user : Option String
  deriving Repr, DecidableEq

/-- Embedding of `HubAuth.authenticate` (hubauth.py lines 193-203).
Returns the boolean result together with the updated state: if
`user ∈ self.graders` the method sets `self._user = user` and returns
`True`; otherwise it logs a warning and returns `False` without touching
state. -/
def authenticate (s : AuthState) (user : String) : Bool × AuthState :=
  if user ∈ s.graders then
    (true, { s with user := some user })
  else
    (false, s)

/-- Embedding of `HubAuth.add_remap_url_prefix` (hubauth.py lines 165-169):
prepend `self.remap_url`, special-casing the root path. -/
def add_remap_url_prefix (remap_url url : String) : String :=
  if url = "/" then
    remap_url ++ "/?"
  else
    remap_url ++ url

/-- A web handler triple as passed to `transform_handler` (hubauth.py lines
171-185): a path pattern, an opaque handler class, and (when the Python
tuple has length 3) a kwargs dict, modelled as an association list. -/
structure Handler (α : Type) where
  pattern : String
  cls : α
  kwargs : Option (List (String × String))
  deriving Repr, DecidableEq

/-- The effect of `new_args = handler[2].copy(); if ... in new_args:
new_args[...] = self.add_remap_url_prefix(new_args[...])` on a dict with
unique keys: the binding at key "url" is rewritten, every other binding is
kept. -/
def transform_kwargs (remap_url : String) :
    List (String × String) → List (String × String)
  | [] => []
  | (k, v) :: t =>
      (if k = "url" then (k, add_remap_url_prefix remap_url v) else (k, v)) ::
        transform_kwargs remap_url t

/-- Embedding of `HubAuth.transform_handler` (hubauth.py lines 171-185):
rewrite the path pattern through ` add_remap_url_prefix`, copy the kwargs
dict (when present) rewriting its "url" entry, and keep the class. -/
def transform_handler {α : Type} (remap_url : String) (h : Handler α) :
    Handler α :=
  { pattern := add_remap_url_prefix remap_url h.pattern
    cls := h.cls
    kwargs := h.kwargs.map (transform_kwargs remap_url) }

/-- Which deprecated option names `HubAuth._config_changed` rejects. -/
structure HubAuthConfig where
  proxy_address : Bool
  proxy_port : Bool
  hub_address : Bool
  hub_port : Bool
  hubapi_address : Bool
  hubapi_port : Bool
  deriving Repr, DecidableEq

/-- Embedding of `HubAuth._config_changed` (hubauth.py lines 100-137): the
six membership tests `in new.HubAuth`, in source order, each raising a
`ValueError` naming the replacement option, otherwise falling through to
the superclass handler (`.ok ()`). -/
def _config_changed (c : HubAuthConfig) : Except String Unit :=
  if c.proxy_address then
    .error ("HubAuth.proxy_address is no longer a valid configuration " ++
      "option, please use " ++ "HubAuth.proxy_base_url" ++ " instead.")
  else if c.proxy_port then
    .error ("HubAuth.proxy_port is no longer a valid configuration " ++
      "option, please use " ++ "HubAuth.proxy_base_url" ++ " instead.")
  else if c.hub_address then
    .error ("HubAuth.hub_address is no longer a valid configuration " ++
      "option, please use " ++ "HubAuth.hub_base_url" ++ " instead.")
  else if c.hub_port then
    .error ("HubAuth.hub_port is no longer a valid configuration " ++
      "option, please use " ++ "HubAuth.hub_base_url" ++ " instead.")
  else if c.hubapi_address then
    .error ("HubAuth.hubapi_address is no longer a valid configuration " ++
      "option, please use " ++ "HubAuth.hubapi_base_url" ++ " instead.")
  else if c.hubapi_port then
    .error ("HubAuth.hubapi_port is no longer a valid configuration " ++
      "option, please use " ++ "HubAuth.hubapi_base_url" ++ " instead.")
  else
    .ok ()

/-- The six deprecated option names checked by `_config_changed`. -/
inductive DeprecatedOpt where
  | proxy_address
  | proxy_port
  | hub_address
  | hub_port
  | hubapi_address
  | hubapi_port
  deriving Repr, DecidableEq

/-- The replacement option named in the error for each deprecated option. -/
def replacement : DeprecatedOpt → String
  | .proxy_address => "HubAuth.proxy_base_url"
  | .proxy_port => "HubAuth.proxy_base_url"
  | .hub_address => "HubAuth.hub_base_url"
  | .hub_port => "HubAuth.hub_base_url"
  | .hubapi_address => "HubAuth.hubapi_base_url"
  | .hubapi_port => "HubAuth.hubapi_base_url"

/-- Whether a configuration supplies a given deprecated option. -/
def hasOpt (c : HubAuthConfig) : DeprecatedOpt → Bool
  | .proxy_address => c.proxy_address
  | .proxy_port => c.proxy_port
  | .hub_address => c.hub_address
  | .hub_port => c.hub_port
  | .hubapi_address => c.hubapi_address
  | .hubapi_port => c.hubapi_port

/-- The configuration supplying exactly one deprecated option. -/
def soloConfig : DeprecatedOpt → HubAuthConfig
  | .proxy_address => ⟨true, false, false, false, false, false⟩
  | .proxy_port => ⟨false, true, false, false, false, false⟩
  | .hub_address => ⟨false, false, true, false, false, false⟩
  | .hub_port => ⟨false, false, false, true, false, false⟩
  | .hubapi_address => ⟨false, false, false, false, true, false⟩
  | .hubapi_port => ⟨false, false, false, false, false, true⟩

/-- A response from the configurable-http-proxy, as read by
`register_with_proxy` (status code and body text). -/
structure ProxyResponse where
  status_code : Nat
  text : String
  deriving Repr, DecidableEq

/-- An outbound request issued through `self._proxy_request`: method,
relative path, and the JSON body's target field. -/
structure ProxyRequest where
  method : String
  path : String
  target : String
  deriving Repr, DecidableEq

/-- Embedding of `HubAuth.register_with_proxy` (hubauth.py lines 148-163):
pick the connect ip (falling back to `self._ip`), issue one POST to
`/api/routes` plus the remap url with the target address as body, and
raise unless the response status is 201, with the status and body text in
the exception message. -/
def register_with_proxy (connect_ip _ip : String) (_port : Nat)
    (remap_url : String) (resp : ProxyResponse) :
    ProxyRequest × Except String Unit :=
  let ip := if connect_ip ≠ "" then connect_ip else _ip
  let target := "http://" ++ ip ++ ":" ++ toString _port
  (⟨"POST", "/api/routes" ++ remap_url, target⟩,
    if resp.status_code = 201 then Except.ok ()
    else Except.error ("Error while trying to add JupyterHub route. " ++
      toString resp.status_code ++ ": " ++ resp.text))

/-- Embedding of `HubAuth.__init__` (hubauth.py lines 139-142): set
`self._base_url = self.hub_base_url + self.remap_url` and call
`self.register_with_proxy()`.  The first component collects every proxy
request issued during construction; the second is the constructed
base url, or the construction-aborting error. -/
def hubauth_init (hub_base_url connect_ip _ip : String) (_port : Nat)
    (remap_url : String) (resp : ProxyResponse) :
    List ProxyRequest × Except String String :=
  let r := register_with_proxy connect_ip _ip _port remap_url resp
  ([r.1], r.2.map (fun _ => hub_base_url ++ remap_url))

/-- The hub's answer to `GET /hub/api/users/<user>` as consumed by
`notebook_server_exists`: the HTTP status and, for a 200 answer, the
parsed body fields `server` and `pending`. -/
structure UserStatusResponse where
  status_code : Nat
  server : Option String
  pending : Option String
  deriving Repr, DecidableEq

/-- Bool test for an HTTP 2xx status code (used to state the claim about
"non-2xx" responses). -/
def is2xx (n : Nat) : Bool :=
  decide (200 ≤ n) && decide (n < 300)

/-- Embedding of `HubAuth.notebook_server_exists` (hubauth.py lines
205-230).  `spawn_status` is the status the hub would answer to the spawn
POST; the second component counts how many spawn POSTs were issued.  The
method returns `False` unless the status query answers 200; then, when the
server is absent (`server is None`) and not pending a spawn
(`pending != "spawn"`), it issues one spawn POST and returns `False`
unless that answers 201 or 202; otherwise it returns `True`. -/
def notebook_server_exists (resp : UserStatusResponse) (spawn_status : Nat) :
    Bool × Nat :=
  if resp.status_code = 200 then
    if resp.server = none ∧ resp.pending ≠ some "spawn" then
      if spawn_status = 201 ∨ spawn_status = 202 then (true, 1) else (false, 1)
    else
      (true, 0)
  else
    (false, 0)

/-- The hub's answer to the admin-access POST as consumed by
`get_notebook_server_cookie`: the HTTP status and the response cookie jar
as an association list. -/
structure CookieResponse where
  status_code : Nat
  cookies : List (String × String)
  deriving Repr, DecidableEq

/-- The cookie descriptor built by `get_notebook_server_cookie`. -/
structure Cookie where
  name : String
  value : String
  path : String
  deriving Repr, DecidableEq

/-- Embedding of `HubAuth.get_notebook_server_cookie` (hubauth.py lines
232-253).  `unquote` stands for `six.moves.urllib.parse.unquote`, an
external library function passed in abstractly.  Returns `.ok none` when
no separate notebook server user is configured or the admin-access POST
does not answer 200; when the scoped cookie is present in the 200 answer,
returns the descriptor with the value unquoted after dropping the first
and last characters (`[1:-1]`); a missing cookie is a raised KeyError. -/
def get_notebook_server_cookie (unquote : String → String)
    (hubapi_cookie notebook_server_user : String) (resp : CookieResponse) :
    Except String (Option Cookie) :=
  if notebook_server_user = "" then
    Except.ok none
  else if resp.status_code ≠ 200 then
    Except.ok none
  else
    let cookie_name := hubapi_cookie ++ "-" ++ notebook_server_user
    match resp.cookies.lookup cookie_name with
    | none => Except.error "KeyError"
    | some raw =>
        Except.ok (some
          { name := cookie_name
            value := unquote ((raw.drop 1).dropRight 1)
            path := "/user/" ++ notebook_server_user })

/-- The fields of the in-memory `JupyterHubAuth` delegate
(`self.hub_authenticator`) touched by this module. -/
structure JupyterHubAuthState where
  login_url : String
  api_url : String
  api_token : String
  cookie_name : String
  deriving Repr, DecidableEq

/-- Embedding of `HubAuth._hubapi_token_default` (hubauth.py lines 53-54):
the `JPY_API_TOKEN` environment variable, empty string when unset. -/
def _hubapi_token_default (env : List (String × String)) : String :=
  (env.lookup "JPY_API_TOKEN").getD ""

/-- Embedding of `HubAuth._proxy_token_default` (hubauth.py lines 71-72):
the `CONFIGPROXY_AUTH_TOKEN` environment variable, empty string when
unset. -/
def _proxy_token_default (env : List (String × String)) : String :=
  (env.lookup "CONFIGPROXY_AUTH_TOKEN").getD ""

/-- Embedding of `HubAuth._hubapi_base_url_changed` (hubauth.py lines
46-48): when the delegate exists, point its `api_url` at the new base url
plus `/hub/api`. -/
def _hubapi_base_url_changed (auth : Option JupyterHubAuthState)
    (new : String) : Option JupyterHubAuthState :=
  auth.map (fun a => { a with api_url := new ++ "/hub/api" })

/-- Embedding of `HubAuth._hubapi_token_changed` (hubauth.py lines 55-57):
when the delegate exists, replace its `api_token`. -/
def _hubapi_token_changed (auth : Option JupyterHubAuthState)
    (new : String) : Option JupyterHubAuthState :=
  auth.map (fun a => { a with api_token := new })

/-- Embedding of `HubAuth._hubapi_cookie_changed` (hubauth.py lines
60-62): when the delegate exists, replace its `cookie_name`. -/
def _hubapi_cookie_changed (auth : Option JupyterHubAuthState)
    (new : String) : Option JupyterHubAuthState :=
  auth.map (fun a => { a with cookie_name := new })

/-- The module-level import guard (hubauth.py lines 12-16, 26-29): when
the `jupyterhub` package imports, the class attribute is an instance
trait; when the import fails, `hub_authenticator` is the constant
`None`. -/
def hub_authenticator_attr (jupyterhub_available : Bool)
    (instance_default : JupyterHubAuthState) : Option JupyterHubAuthState :=
  if jupyterhub_available then some instance_default else none

/-- Embedding of the `login_url` property (hubauth.py lines 144-146):
`self.hub_authenticator.login_url`, an AttributeError when the delegate
is `None`. -/
def login_url (auth : Option JupyterHubAuthState) : Except String String :=
  match auth with
  | none => Except.error "AttributeError"
  | some a => Except.ok a.login_url

/-- Embedding of `HubAuth.get_user` (hubauth.py lines 187-191):
delegate to `self.hub_authenticator.get_user(handler)` (an AttributeError
when the delegate is `None`), then return the model's name field, or
`None` when no user model comes back. -/
def get_user (auth : Option JupyterHubAuthState)
    (hub_get_user : JupyterHubAuthState → Option (List (String × String))) :
    Except String (Option String) :=
  match auth with
  | none => Except.error "AttributeError"
  | some a =>
      match hub_get_user a with
      | none => Except.ok none
      | some user_model =>
          match user_model.lookup "name" with
          | none => Except.error "KeyError"
          | some n => Except.ok (some n)

/-- Python's `str.rstrip` for a single character: drop every trailing
occurrence. -/
def rstrip (ch : Char) (s : String) : String :=
  String.mk ((s.data.reverse.dropWhile (fun c => c == ch)).reverse)

/-- Python's `str.lstrip` for a single character: drop every leading
occurrence. -/
def lstrip (ch : Char) (s : String) : String :=
  String.mk (s.data.dropWhile (fun c => c == ch))

/-- Embedding of `HubAuth._remap_url_changed` (hubauth.py lines 87-88):
the value stored back is `new.rstrip('/')`. -/
def _remap_url_changed (new : String) : String :=
  rstrip '/' new

/-- Embedding of `HubAuth._notebook_url_prefix_changed` (hubauth.py lines
77-78): the value stored back is `new.strip('/')`, i.e. stripped of
leading and trailing slashes. -/
def _notebook_url_prefix_changed (new : String) : String :=
  rstrip '/' (lstrip '/' new)

end HubAuth

/-- Auxiliary: `List.lookup` on the kwargs produced by `transform_kwargs`
returns the transformed value at key "url". -/
theorem lookup_transform_url (remap_url : String)
    (kw : List (String × String)) :
    (HubAuth.transform_kwargs remap_url kw).lookup "url" =
      (kw.lookup "url").map (fun v => HubAuth.add_remap_url_prefix remap_url v) := by
  induction kw with
  | nil => rfl
  | cons p t ih =>
    obtain ⟨a, b⟩ := p
    by_cases h : a = "url"
    · subst h
      rw [HubAuth.transform_kwargs, if_pos rfl]
      simp [List.lookup]
    · rw [HubAuth.transform_kwargs, if_neg h]
      have h' : ("url" == a) = false := by
        simp [Ne.symm h]
      simp [List.lookup, h', ih]

/-- Auxiliary: `List.lookup` on the kwargs produced by `transform_kwargs`
is unchanged at every key other than "url". -/
theorem lookup_transform_other (remap_url k : String) (hk : k ≠ "url")
    (kw : List (String × String)) :
    (HubAuth.transform_kwargs remap_url kw).lookup k = kw.lookup k := by
  induction kw with
  | nil => rfl
  | cons p t ih =>
    obtain ⟨a, b⟩ := p
    by_cases h : a = "url"
    · subst h
      rw [HubAuth.transform_kwargs, if_pos rfl]
      have h' : (k == "url") = false := by
        simp [hk]
      simp [List.lookup, h', ih]
    · rw [HubAuth.transform_kwargs, if_neg h]
      by_cases h2 : k = a
      · subst h2
        simp [List.lookup]
      · have h' : (k == a) = false := by
          simp [h2]
        simp [List.lookup, h', ih]


/-- Claim C5: `transform_handler` rewrites the path through
` add_remap_url_prefix` and, when a kwargs mapping is present, rewrites its
"url" entry likewise; the handler class, the presence of kwargs, and every
kwargs entry at a key other than "url" are unchanged.  (The input handler
is a value, so it is not mutated; the source copies the dict before
updating it.) -/
theorem transform_handler_spec {α : Type} (remap_url : String)
    (h : HubAuth.Handler α) :
    (HubAuth.transform_handler remap_url h).pattern =
      HubAuth.add_remap_url_prefix remap_url h.pattern ∧
    (HubAuth.transform_handler remap_url h).cls = h.cls ∧
    (h.kwargs = none → (HubAuth.transform_handler remap_url h).kwargs = none) ∧
    (∀ kw, h.kwargs = some kw →
      ∃ kw', (HubAuth.transform_handler remap_url h).kwargs = some kw' ∧
        kw'.lookup "url" = (kw.lookup "url").map
          (fun v => HubAuth.add_remap_url_prefix remap_url v) ∧
        ∀ k, k ≠ "url" → kw'.lookup k = kw.lookup k) := by
  refine ⟨rfl, rfl, ?_, ?_⟩
  · intro hnone
    simp [HubAuth.transform_handler, hnone]
  · intro kw hkw
    refine ⟨HubAuth.transform_kwargs remap_url kw, ?_, ?_, ?_⟩
    · simp [HubAuth.transform_handler, hkw]
    · exact lookup_transform_url remap_url kw
    · intro k hk
      exact lookup_transform_other remap_url k hk kw

/-- Witness for C5 at a concrete handler with a "url" kwarg and one other
kwarg. -/
theorem transform_handler_spec_witness :
    ∃ kw', (HubAuth.transform_handler "/hub/nbgrader/c"
        ({ pattern := "/", cls := 7,
           kwargs := some [("url", "/x"), ("a", "b")] } :
          HubAuth.Handler Nat)).kwargs = some kw' ∧
      kw'.lookup "url" =
        (([("url", "/x"), ("a", "b")] : List (String × String)).lookup "url").map
          (fun v => HubAuth.add_remap_url_prefix "/hub/nbgrader/c" v) ∧
      ∀ k, k ≠ "url" →
        kw'.lookup k =
          ([("url", "/x"), ("a", "b")] : List (String × String)).lookup k :=
  (transform_handler_spec "/hub/nbgrader/c" _).2.2.2 [("url", "/x"), ("a", "b")] rfl

/-- Claim C6: supplying any deprecated option aborts configuration
processing with an error, and for each deprecated option the error raised
when it is supplied (as the deprecated option present) names the
replacement option as a substring of the message. -/
theorem config_changed_spec (d : HubAuth.DeprecatedOpt) :
    (∀ c : HubAuth.HubAuthConfig, HubAuth.hasOpt c d = true →
       ∃ m, HubAuth._config_changed c = Except.error m) ∧
    (∃ m, HubAuth._config_changed (HubAuth.soloConfig d) = Except.error m ∧
       ∃ s t, m = s ++ HubAuth.replacement d ++ t) := by
  constructor
  · intro c hc
    obtain ⟨a, b, c1, d1, e, f⟩ := c
    cases a <;> cases b <;> cases c1 <;> cases d1 <;> cases e <;> cases f <;>
      cases d <;> simp_all [HubAuth.hasOpt, HubAuth._config_changed]
  · cases d
    · exact ⟨_, rfl,
        "HubAuth.proxy_address is no longer a valid configuration " ++
          "option, please use ", " instead.", rfl⟩
    · exact ⟨_, rfl,
        "HubAuth.proxy_port is no longer a valid configuration " ++
          "option, please use ", " instead.", rfl⟩
    · exact ⟨_, rfl,
        "HubAuth.hub_address is no longer a valid configuration " ++
          "option, please use ", " instead.", rfl⟩
    · exact ⟨_, rfl,
        "HubAuth.hub_port is no longer a valid configuration " ++
          "option, please use ", " instead.", rfl⟩
    · exact ⟨_, rfl,
        "HubAuth.hubapi_address is no longer a valid configuration " ++
          "option, please use ", " instead.", rfl⟩
    · exact ⟨_, rfl,
        "HubAuth.hubapi_port is no longer a valid configuration " ++
          "option, please use ", " instead.", rfl⟩

/-- Witness for C6: a configuration supplying `proxy_address` is rejected. -/
theorem config_changed_spec_witness :
    ∃ m, HubAuth._config_changed ⟨true, false, false, false, false, false⟩ =
      Except.error m :=
  (config_changed_spec .proxy_address).1 ⟨true, false, false, false, false, false⟩ rfl

/-- Claim C1: `authenticate` returns true exactly on allow-listed users,
recording the user on success and leaving state unchanged on failure. -/
theorem authenticate_spec (s : HubAuth.AuthState) (u : String) :
    ((HubAuth.authenticate s u).1 = true ↔ u ∈ s.graders) ∧
    ((HubAuth.authenticate s u).1 = true →
      (HubAuth.authenticate s u).2 = { s with user := some u }) ∧
    ((HubAuth.authenticate s u).1 = false →
      (HubAuth.authenticate s u).2 = s) := by
  unfold HubAuth.authenticate
  by_cases h : u ∈ s.graders <;> simp [h]

/-- Claim C4: for the current remap value `p`, ` add_remap_url_prefix "/"` returns
`p ++ "/?"`, and for any other url it returns `p ++ url`.  (Purity and
determinism are immediate: the embedding is a function of the prefix and
the url only.) -/
theorem add_remap_url_spec (p url : String) :
    (url = "/" → HubAuth.add_remap_url_prefix p url = p ++ "/?") ∧
    (url ≠ "/" → HubAuth.add_remap_url_prefix p url = p ++ url) := by
  unfold HubAuth.add_remap_url_prefix
  by_cases h : url = "/" <;> simp [h]

/-- Auxiliary: string append is associative. -/
theorem str_append_assoc (a b c : String) : a ++ b ++ c = a ++ (b ++ c) := by
  apply String.ext
  simp [String.data_append, List.append_assoc]

/-- Auxiliary: the head of what `dropWhile` keeps fails the predicate. -/
theorem dropWhile_head_false {α : Type} (p : α → Bool) (l : List α) (c : α)
    (h : (l.dropWhile p).head? = some c) : p c = false := by
  induction l with
  | nil => simp [List.dropWhile] at h
  | cons a t ih =>
    rw [List.dropWhile_cons] at h
    by_cases hp : p a
    · rw [if_pos hp] at h
      exact ih h
    · rw [if_neg hp] at h
      simp at h
      subst h
      simpa using hp

/-- Auxiliary: a list extends the head of any of its prefixes. -/
theorem head_eq_of_isPrefix {α : Type} {l₁ l₂ : List α} (hp : l₁ <+: l₂)
    (c : α) (h : l₁.head? = some c) : l₂.head? = some c := by
  obtain ⟨rest, rfl⟩ := hp
  cases l₁ with
  | nil => simp at h
  | cons a t => simpa using h

/-- Witness for C1: the allow-listed user "alice" is recorded on success. -/
theorem authenticate_spec_witness :
    (HubAuth.authenticate ⟨["alice"], none⟩ "alice").2 =
      { graders := ["alice"], user := some "alice" } :=
  (authenticate_spec ⟨["alice"], none⟩ "alice").2.1 (by decide)

/-- Witness for C4 at the root path and a concrete remap value. -/
theorem add_remap_url_spec_witness :
    HubAuth.add_remap_url_prefix "/hub/nbgrader/math" "/" =
      "/hub/nbgrader/math" ++ "/?" :=
  (add_remap_url_spec "/hub/nbgrader/math" "/").1 rfl

/-- Claim C3: construction issues exactly one POST to the proxy route
table (`/api/routes` plus the remap url); a 201 response lets
initialization proceed to the composed base url, and any other status
raises an error whose message contains the response status and the
response body text. -/
theorem register_with_proxy_spec (hub_base_url connect_ip _ip : String)
    (_port : Nat) (remap_url : String) (resp : HubAuth.ProxyResponse) :
    (HubAuth.hubauth_init hub_base_url connect_ip _ip _port remap_url
      resp).1.length = 1 ∧
    (∀ req ∈ (HubAuth.hubauth_init hub_base_url connect_ip _ip _port remap_url
        resp).1,
      req.method = "POST" ∧ req.path = "/api/routes" ++ remap_url) ∧
    (resp.status_code = 201 →
      (HubAuth.hubauth_init hub_base_url connect_ip _ip _port remap_url
        resp).2 = Except.ok (hub_base_url ++ remap_url)) ∧
    (resp.status_code ≠ 201 →
      ∃ m, (HubAuth.hubauth_init hub_base_url connect_ip _ip _port remap_url
          resp).2 = Except.error m ∧
        (∃ s t, m = s ++ toString resp.status_code ++ t) ∧
        (∃ s, m = s ++ resp.text)) := by
  refine ⟨rfl, ?_, ?_, ?_⟩
  · intro req hreq
    simp only [HubAuth.hubauth_init, HubAuth.register_with_proxy,
      List.mem_singleton] at hreq
    subst hreq
    exact ⟨rfl, rfl⟩
  · intro h
    simp [HubAuth.hubauth_init, HubAuth.register_with_proxy, h, Except.map]
  · intro h
    refine ⟨"Error while trying to add JupyterHub route. " ++
        toString resp.status_code ++ ": " ++ resp.text, ?_, ?_, ?_⟩
    · simp [HubAuth.hubauth_init, HubAuth.register_with_proxy, h, Except.map]
    · exact ⟨"Error while trying to add JupyterHub route. ",
        ": " ++ resp.text, str_append_assoc _ _ _⟩
    · exact ⟨"Error while trying to add JupyterHub route. " ++
        toString resp.status_code ++ ": ", rfl⟩

/-- Witness for C3: a 403 response from the proxy aborts construction with
a message containing the status and body. -/
theorem register_with_proxy_spec_witness :
    ∃ m, (HubAuth.hubauth_init "http://h:8000" "" "127.0.0.1" 9000
        "/hub/nbgrader/c" ⟨403, "Forbidden"⟩).2 = Except.error m ∧
      (∃ s t, m = s ++ toString (403 : Nat) ++ t) ∧
      (∃ s, m = s ++ "Forbidden") :=
  (register_with_proxy_spec "http://h:8000" "" "127.0.0.1" 9000
    "/hub/nbgrader/c" ⟨403, "Forbidden"⟩).2.2.2 (by decide)

/-- Counterexample to C2 as stated: with the status query answering 200,
the server absent and not pending a spawn, a spawn POST answering 200 — a
2xx response — makes the method return `False` (after issuing the one
spawn POST), where the claim predicts `True`: the code accepts only 201
and 202 there. -/
theorem notebook_server_exists_cex :
    HubAuth.is2xx 200 = true ∧
    (⟨200, none, none⟩ : HubAuth.UserStatusResponse).server = none ∧
    (⟨200, none, none⟩ : HubAuth.UserStatusResponse).pending ≠ some "spawn" ∧
    HubAuth.notebook_server_exists ⟨200, none, none⟩ 200 ≠ (true, 1) ∧
    HubAuth.notebook_server_exists ⟨200, none, none⟩ 200 = (false, 1) := by
  refine ⟨rfl, rfl, by decide, by decide, by decide⟩

/-- Claim C2 as amended: `notebook_server_exists` returns true with no
spawn POST when the status query answers 200 and reports a server present
or a pending spawn; when the status query answers 200 with the server
absent and not pending it issues exactly one spawn POST and returns true
precisely when that POST answers 201 or 202; and it returns false with no
spawn POST when the status query answers anything other than 200. -/
theorem notebook_server_exists_amended (resp : HubAuth.UserStatusResponse)
    (spawn_status : Nat) :
    (resp.status_code = 200 → resp.server ≠ none →
      HubAuth.notebook_server_exists resp spawn_status = (true, 0)) ∧
    (resp.status_code = 200 → resp.server = none →
      resp.pending = some "spawn" →
      HubAuth.notebook_server_exists resp spawn_status = (true, 0)) ∧
    (resp.status_code = 200 → resp.server = none →
      resp.pending ≠ some "spawn" →
      ((spawn_status = 201 ∨ spawn_status = 202 →
        HubAuth.notebook_server_exists resp spawn_status = (true, 1)) ∧
       (¬(spawn_status = 201 ∨ spawn_status = 202) →
        HubAuth.notebook_server_exists resp spawn_status = (false, 1)))) ∧
    (resp.status_code ≠ 200 →
      HubAuth.notebook_server_exists resp spawn_status = (false, 0)) := by
  refine ⟨?_, ?_, ?_, ?_⟩
  · intro h1 h2
    simp [HubAuth.notebook_server_exists, h1, h2]
  · intro h1 h2 h3
    simp [HubAuth.notebook_server_exists, h1, h2, h3]
  · intro h1 h2 h3
    constructor
    · intro h4
      simp [HubAuth.notebook_server_exists, h1, h2, h3, h4]
    · intro h4
      simp [HubAuth.notebook_server_exists, h1, h2, h3, h4]
  · intro h1
    simp [HubAuth.notebook_server_exists, h1]

/-- Witness for (amended) C2: a pending spawn yields true with no spawn
POST even when a spawn would be refused. -/
theorem notebook_server_exists_amended_witness :
    HubAuth.notebook_server_exists ⟨200, none, some "spawn"⟩ 500 = (true, 0) :=
  (notebook_server_exists_amended ⟨200, none, some "spawn"⟩ 500).2.1 rfl rfl rfl

/-- Claim C7: `get_notebook_server_cookie` returns none when no separate
notebook server user is configured, returns none when the admin-access
POST answers a non-200 status, and otherwise (with the scoped cookie
present in the answer) returns a `{name, value, path}` descriptor whose
path is `/user/` plus the notebook server user. -/
theorem get_notebook_server_cookie_spec (unquote : String → String)
    (hubapi_cookie nsu : String) (resp : HubAuth.CookieResponse) :
    (nsu = "" →
      HubAuth.get_notebook_server_cookie unquote hubapi_cookie nsu resp =
        Except.ok none) ∧
    (nsu ≠ "" → resp.status_code ≠ 200 →
      HubAuth.get_notebook_server_cookie unquote hubapi_cookie nsu resp =
        Except.ok none) ∧
    (nsu ≠ "" → resp.status_code = 200 →
      ∀ raw, resp.cookies.lookup (hubapi_cookie ++ "-" ++ nsu) = some raw →
        HubAuth.get_notebook_server_cookie unquote hubapi_cookie nsu resp =
          Except.ok (some
            { name := hubapi_cookie ++ "-" ++ nsu
              value := unquote ((raw.drop 1).dropRight 1)
              path := "/user/" ++ nsu })) := by
  refine ⟨?_, ?_, ?_⟩
  · intro h1
    simp [HubAuth.get_notebook_server_cookie, h1]
  · intro h1 h2
    simp [HubAuth.get_notebook_server_cookie, h1, h2]
  · intro h1 h2 raw h3
    simp [HubAuth.get_notebook_server_cookie, h1, h2, h3]

/-- Witness for C7 at a concrete cookie jar holding the scoped cookie. -/
theorem get_notebook_server_cookie_spec_witness :
    HubAuth.get_notebook_server_cookie id "jupyter-hub-token" "bob"
        ⟨200, [("jupyter-hub-token-bob", "xvalx")]⟩ =
      Except.ok (some
        { name := "jupyter-hub-token" ++ "-" ++ "bob"
          value := id ((("xvalx" : String).drop 1).dropRight 1)
          path := "/user/" ++ "bob" }) :=
  (get_notebook_server_cookie_spec id "jupyter-hub-token" "bob"
      ⟨200, [("jupyter-hub-token-bob", "xvalx")]⟩).2.2 (by decide) rfl
    "xvalx" (by decide)

/-- Claim C8: unset tokens default to the `JPY_API_TOKEN` and
`CONFIGPROXY_AUTH_TOKEN` environment variables (empty string when unset),
and each change handler updates exactly its corresponding field of the
in-memory hub-auth delegate, leaving the delegate's other fields
unchanged. -/
theorem hub_delegate_propagation_spec :
    (∀ env : List (String × String), ∀ v,
      env.lookup "JPY_API_TOKEN" = some v →
        HubAuth._hubapi_token_default env = v) ∧
    (∀ env : List (String × String),
      env.lookup "JPY_API_TOKEN" = none →
        HubAuth._hubapi_token_default env = "") ∧
    (∀ env : List (String × String), ∀ v,
      env.lookup "CONFIGPROXY_AUTH_TOKEN" = some v →
        HubAuth._proxy_token_default env = v) ∧
    (∀ env : List (String × String),
      env.lookup "CONFIGPROXY_AUTH_TOKEN" = none →
        HubAuth._proxy_token_default env = "") ∧
    (∀ a new, ∃ a', HubAuth._hubapi_base_url_changed (some a) new = some a' ∧
      a'.api_url = new ++ "/hub/api" ∧ a'.login_url = a.login_url ∧
      a'.api_token = a.api_token ∧ a'.cookie_name = a.cookie_name) ∧
    (∀ a new, ∃ a', HubAuth._hubapi_token_changed (some a) new = some a' ∧
      a'.api_token = new ∧ a'.login_url = a.login_url ∧
      a'.api_url = a.api_url ∧ a'.cookie_name = a.cookie_name) ∧
    (∀ a new, ∃ a', HubAuth._hubapi_cookie_changed (some a) new = some a' ∧
      a'.cookie_name = new ∧ a'.login_url = a.login_url ∧
      a'.api_url = a.api_url ∧ a'.api_token = a.api_token) := by
  refine ⟨?_, ?_, ?_, ?_, ?_, ?_, ?_⟩
  · intro env v h
    simp [HubAuth._hubapi_token_default, h]
  · intro env h
    simp [HubAuth._hubapi_token_default, h]
  · intro env v h
    simp [HubAuth._proxy_token_default, h]
  · intro env h
    simp [HubAuth._proxy_token_default, h]
  · intro a new
    exact ⟨_, rfl, rfl, rfl, rfl, rfl⟩
  · intro a new
    exact ⟨_, rfl, rfl, rfl, rfl, rfl⟩
  · intro a new
    exact ⟨_, rfl, rfl, rfl, rfl, rfl⟩

/-- Witness for C8: a set environment variable becomes the token default. -/
theorem hub_delegate_propagation_spec_witness :
    HubAuth._hubapi_token_default [("JPY_API_TOKEN", "tok")] = "tok" :=
  hub_delegate_propagation_spec.1 [("JPY_API_TOKEN", "tok")] "tok" (by decide)

/-- Claim C9: when the jupyterhub package is unavailable at import time,
`hub_authenticator` is the constant `None`, and both `get_user` and the
`login_url` property raise an AttributeError rather than returning none
or a deny: there is no disabled-authentication fallback. -/
theorem hub_authenticator_fallback_spec (d : HubAuth.JupyterHubAuthState)
    (f : HubAuth.JupyterHubAuthState → Option (List (String × String))) :
    HubAuth.hub_authenticator_attr false d = none ∧
    HubAuth.login_url none = Except.error "AttributeError" ∧
    HubAuth.get_user none f = Except.error "AttributeError" ∧
    HubAuth.get_user none f ≠ Except.ok none ∧
    HubAuth.login_url none ≠ Except.ok "/hub/login" := by
  refine ⟨rfl, rfl, rfl, ?_, ?_⟩
  · simp [HubAuth.get_user]
  · simp [HubAuth.login_url]

/-- Witness for C9 at a concrete delegate shape. -/
theorem hub_authenticator_fallback_spec_witness :
    HubAuth.get_user none (fun _ => none) = Except.error "AttributeError" :=
  (hub_authenticator_fallback_spec ⟨"/hub/login", "u", "t", "c"⟩
    (fun _ => none)).2.2.1

/-- Claim C10: after an assignment through the trait change handlers, the
stored remap url never ends with a slash, and the stored notebook url
path piece never begins or ends with a slash. -/
theorem url_normalization_spec (new : String) :
    (HubAuth._remap_url_changed new).data.getLast? ≠ some '/' ∧
    (HubAuth._notebook_url_prefix_changed new).data.getLast? ≠ some '/' ∧
    (HubAuth._notebook_url_prefix_changed new).data.head? ≠ some '/' := by
  refine ⟨?_, ?_, ?_⟩
  · intro h
    have h2 : ((new.data.reverse.dropWhile
        (fun c => c == '/')).reverse).getLast? = some '/' := h
    rw [List.getLast?_reverse] at h2
    have h3 := dropWhile_head_false _ _ _ h2
    simp at h3
  · intro h
    have h2 : (((HubAuth.lstrip '/' new).data.reverse.dropWhile
        (fun c => c == '/')).reverse).getLast? = some '/' := h
    rw [List.getLast?_reverse] at h2
    have h3 := dropWhile_head_false _ _ _ h2
    simp at h3
  · intro h
    have hsuf : ((HubAuth.lstrip '/' new).data.reverse.dropWhile
        (fun c => c == '/')) <:+ (HubAuth.lstrip '/' new).data.reverse :=
      List.dropWhile_suffix _
    have h3 := (List.reverse_prefix).mpr hsuf
    rw [List.reverse_reverse] at h3
    have hhead := head_eq_of_isPrefix h3 '/' h
    have h4 := dropWhile_head_false _ _ _ hhead
    simp at h4

/-- Witness for C10 on a value with leading and trailing slashes. -/
theorem url_normalization_spec_witness :
    (HubAuth._notebook_url_prefix_changed "/Documents/").data.getLast? ≠
      some '/' :=
  (url_normalization_spec "/Documents/").2.1
